import Mathlib

/-!
Shallow embedding of the SkiFree game core (TypeScript) in Lean 4.

Sources embedded:
  * `src/Entities/Skier.ts`  — the player entity state machine
  * `src/Entities/Entity.ts` (unnamed part_000) — the abstract entity base
  * `src/Core/Game.ts`       — pause toggling

Numbers: the TypeScript code uses IEEE doubles, but every claim here only
involves additions, subtractions and divisions of small constants, so we
model numbers as `ℚ` (exact).  Frame indices only ever increment from 0 or
reset to 0, so `ℕ` is faithful for them.
-/

namespace SkiFree

/-- Image identifiers used by the embedded entities.  `Constants.ts` is not
part of the provided sources; the members are taken from how `Skier.ts`,
`Entity.ts` and the spec refer to them (skier poses, jump frames, crash pose,
and the obstacle kinds tree / tree cluster / rock ×2 / jump ramp). -/
inductive IMAGE_NAMES where
  | SKIER_LEFT
  | SKIER_LEFTDOWN
  | SKIER_DOWN
  | SKIER_RIGHTDOWN
  | SKIER_RIGHT
  | SKIER_CRASH
  | SKIER_JUMP1
  | SKIER_JUMP2
  | SKIER_JUMP3
  | SKIER_JUMP4
  | SKIER_JUMP5
  | TREE
  | TREE_CLUSTER
  | ROCK1
  | ROCK2
  | JUMP_RAMP
  deriving DecidableEq, Repr

/-- The skier states from `Constants.ts` (`STATES`), as referenced by
`Skier.ts`: skiing, jumping, crashed, dead. -/
inductive STATES where
  | STATE_SKIING
  | STATE_JUMPING
  | STATE_CRASHED
  | STATE_DEAD
  deriving DecidableEq, Repr

/-- `Position` from `Core/Utils.ts`: a mutable (x, y) pair in world space. -/
structure Position where
  x : ℚ
  y : ℚ
  deriving DecidableEq, Repr

/-- `Rect` from `Core/Utils.ts`, constructed as
`new Rect(left, top, right, bottom)` (see `Game.calculateGameWindow`). -/
structure Rect where
  left : ℚ
  top : ℚ
  right : ℚ
  bottom : ℚ
  deriving DecidableEq, Repr

/-- A decoded image handle exposed by the image service: width and height. -/
structure Image where
  width : ℚ
  height : ℚ
  deriving DecidableEq, Repr

/-- The image service: synchronous lookup by identifier, returning the image
or "not yet available" (`ImageManager.getImage`). -/
abbrev ImageManager := IMAGE_NAMES → Option Image

/-- Lookup of a possibly-undefined image name (the skier's `imageName` can in
principle be the result of an out-of-range `DIRECTION_IMAGES` lookup, which in
JS is `undefined`; `getImage(undefined)` finds nothing). -/
def getImage (im : ImageManager) (name : Option IMAGE_NAMES) : Option Image :=
  name.bind im

/-- Modelled from the spec: `intersect(a, b)` from `Core/Utils.ts` (file not
in the provided sources) — standard separating-axis test,
`not (a.right < b.left or a.left > b.right or a.bottom < b.top or a.top > b.bottom)`. -/
def intersectTwoRects (a b : Rect) : Bool :=
  !(decide (a.right < b.left) || decide (a.left > b.right) ||
    decide (a.bottom < b.top) || decide (a.top > b.bottom))

/-- The identity of the completion callback closed over by a skier animation.
The only callback `Skier.ts` ever registers is `continueFromJump` (bound to
the skier itself), so the callback is represented by this tag and applied by
`Skier.finishAnimation`. -/
inductive SkierCallback where
  | continueFromJumpCb
  deriving DecidableEq, Repr

/-- `Core/Animation.ts` as used by the skier: an ordered sequence of image
identifiers, a looping flag, and an optional completion callback.  Immutable
once constructed. -/
structure Animation where
  images : List IMAGE_NAMES
  looping : Bool
  callback : Option SkierCallback
  deriving DecidableEq, Repr

/-- `STARTING_SPEED` from `Skier.ts`. -/
def STARTING_SPEED : ℚ := 5

/-- Modelled from the spec: `DIAGONAL_SPEED_REDUCER` from `Constants.ts`
(file not in the provided sources) — "the square-root-of-2 scale", applied
equally to x and y on diagonal headings.  Its exact value decides none of the
claims below. -/
def DIAGONAL_SPEED_REDUCER : ℚ := 14142 / 10000

/-- The five discrete skier headings from `Skier.ts`.  They are plain JS
numbers there, so we use `ℤ`. -/
def DIRECTION_LEFT : ℤ := 0

def DIRECTION_LEFT_DOWN : ℤ := 1

def DIRECTION_DOWN : ℤ := 2

def DIRECTION_RIGHT_DOWN : ℤ := 3

def DIRECTION_RIGHT : ℤ := 4

/-- `DIRECTION_IMAGES` from `Skier.ts`: partial map from heading to skier
image; a JS lookup outside 0..4 yields `undefined`, modelled as `none`. -/
def DIRECTION_IMAGES (d : ℤ) : Option IMAGE_NAMES :=
  if d = DIRECTION_LEFT then some .SKIER_LEFT
  else if d = DIRECTION_LEFT_DOWN then some .SKIER_LEFTDOWN
  else if d = DIRECTION_DOWN then some .SKIER_DOWN
  else if d = DIRECTION_RIGHT_DOWN then some .SKIER_RIGHTDOWN
  else if d = DIRECTION_RIGHT then some .SKIER_RIGHT
  else none

/-- `IMAGES_JUMPING` from `Skier.ts`: the five jump frames. -/
def IMAGES_JUMPING : List IMAGE_NAMES :=
  [.SKIER_JUMP1, .SKIER_JUMP2, .SKIER_JUMP3, .SKIER_JUMP4, .SKIER_JUMP5]

/-- The animation registered by `Skier.setupAnimations` for the jumping
state: the five jump frames, non-looping, completion callback
`continueFromJump`. -/
def jumpAnimation : Animation :=
  { images := IMAGES_JUMPING, looping := false,
    callback := some .continueFromJumpCb }

/-- The skier's `animations` map.  It is populated once in the constructor
(`setupAnimations`) and never mutated afterwards, so it is a constant of the
model: only `STATE_JUMPING` has a registered animation. -/
def skierAnimations (st : STATES) : Option Animation :=
  match st with
  | .STATE_JUMPING => some jumpAnimation
  | _ => none

/-- The `Skier` entity: the entity-base fields (`position`, `curAnimation`,
`curAnimationFrame`, `curAnimationFrameTime`) inlined with the skier's own
fields (`imageName`, `state`, `direction`, `speed`).  `imageName` is an
`Option` because a `DIRECTION_IMAGES` lookup can in principle produce
`undefined`. -/
structure Skier where
  position : Position
  imageName : Option IMAGE_NAMES
  state : STATES
  direction : ℤ
  speed : ℚ
  curAnimation : Option Animation
  curAnimationFrame : ℕ
  curAnimationFrameTime : ℚ
  deriving DecidableEq, Repr

/-- The skier as built by `new Skier(x, y, ...)`: entity base initializes
position and clears the animation bookkeeping; the field initializers set the
down image, skiing state, down direction and starting speed. -/
def newSkier (x y : ℚ) : Skier :=
  { position := ⟨x, y⟩
    imageName := some .SKIER_DOWN
    state := .STATE_SKIING
    direction := DIRECTION_DOWN
    speed := STARTING_SPEED
    curAnimation := none
    curAnimationFrame := 0
    curAnimationFrameTime := 0 }

namespace Skier

def isSkiing (s : Skier) : Bool := s.state = STATES.STATE_SKIING

def isJumping (s : Skier) : Bool := s.state = STATES.STATE_JUMPING

def isCrashed (s : Skier) : Bool := s.state = STATES.STATE_CRASHED

def isDead (s : Skier) : Bool := s.state = STATES.STATE_DEAD

/-- `Skier.setDirectionalImage`. -/
def setDirectionalImage (s : Skier) : Skier :=
  { s with imageName := DIRECTION_IMAGES s.direction }

/-- `Skier.setDirection`: set the direction, then update the image. -/
def setDirection (d : ℤ) (s : Skier) : Skier :=
  setDirectionalImage { s with direction := d }

/-- `Entity.setAnimation` as inherited by the skier: assign
`curAnimation := animations[state]` (note: this happens before the null
check), then if an animation was found reset the frame index and show its
first frame. -/
def setAnimation (s : Skier) : Skier :=
  let s1 := { s with curAnimation := skierAnimations s.state }
  match s1.curAnimation with
  | none => s1
  | some a =>
    let s2 := { s1 with curAnimationFrame := 0 }
    { s2 with imageName := a.images.get? s2.curAnimationFrame }

/-- `Skier.continueFromJump`: back to skiing at starting speed, facing down. -/
def continueFromJump (s : Skier) : Skier :=
  setDirection DIRECTION_DOWN
    { s with state := .STATE_SKIING, speed := STARTING_SPEED }

/-- `Entity.finishAnimation` as instantiated for the skier: clear the current
animation, then fire its callback if present (the skier's only callback is
`continueFromJump`). -/
def finishAnimation (s : Skier) : Skier :=
  match s.curAnimation with
  | none => s
  | some a =>
    let s1 := { s with curAnimation := none }
    match a.callback with
    | none => s1
    | some .continueFromJumpCb => continueFromJump s1

/-- `Entity.nextAnimationFrame` for the skier: record the time, increment the
frame index; past the last frame a non-looping animation finishes instead of
showing a frame, a looping one wraps to 0; otherwise show the frame at the
new index. -/
def nextAnimationFrame (gameTime : ℚ) (s : Skier) : Skier :=
  match s.curAnimation with
  | none => s
  | some a =>
    let s1 := { s with curAnimationFrameTime := gameTime,
                       curAnimationFrame := s.curAnimationFrame + 1 }
    if s1.curAnimationFrame ≥ a.images.length then
      if a.looping = false then
        finishAnimation s1
      else
        let s2 := { s1 with curAnimationFrame := 0 }
        { s2 with imageName := a.images.get? s2.curAnimationFrame }
    else
      { s1 with imageName := a.images.get? s1.curAnimationFrame }

/-- `Entity.animate` for the skier: advance a frame if an animation is
running and enough time elapsed. -/
def animate (gameTime animationFrameSpeed : ℚ) (s : Skier) : Skier :=
  match s.curAnimation with
  | none => s
  | some _ =>
    if gameTime - s.curAnimationFrameTime > animationFrameSpeed then
      nextAnimationFrame gameTime s
    else
      s

def moveSkierLeft (s : Skier) : Skier :=
  { s with position := { s.position with x := s.position.x - STARTING_SPEED } }

def moveSkierLeftDown (s : Skier) : Skier :=
  { s with position := ⟨s.position.x - s.speed / DIAGONAL_SPEED_REDUCER,
                        s.position.y + s.speed / DIAGONAL_SPEED_REDUCER⟩ }

def moveSkierDown (s : Skier) : Skier :=
  { s with position := { s.position with y := s.position.y + s.speed } }

def moveSkierRightDown (s : Skier) : Skier :=
  { s with position := ⟨s.position.x + s.speed / DIAGONAL_SPEED_REDUCER,
                        s.position.y + s.speed / DIAGONAL_SPEED_REDUCER⟩ }

def moveSkierRight (s : Skier) : Skier :=
  { s with position := { s.position with x := s.position.x + STARTING_SPEED } }

def moveSkierUp (s : Skier) : Skier :=
  { s with position := { s.position with y := s.position.y - STARTING_SPEED } }

/-- `Skier.move`: frame movement by current heading; fully horizontal
headings (and any heading outside the switch) do not move. -/
def move (s : Skier) : Skier :=
  if s.direction = DIRECTION_LEFT_DOWN then moveSkierLeftDown s
  else if s.direction = DIRECTION_DOWN then moveSkierDown s
  else if s.direction = DIRECTION_RIGHT_DOWN then moveSkierRightDown s
  else s

/-- `Skier.recoverFromCrash`. -/
def recoverFromCrash (newDirection : ℤ) (s : Skier) : Skier :=
  setDirection newDirection
    { s with state := .STATE_SKIING, speed := STARTING_SPEED }

/-- `Skier.crash`. -/
def crash (s : Skier) : Skier :=
  { s with state := .STATE_CRASHED, speed := 0,
           imageName := some .SKIER_CRASH }

/-- `Skier.die`. -/
def die (s : Skier) : Skier :=
  { s with state := .STATE_DEAD, speed := 0 }

/-- `Skier.jump`: no-op while crashed or already jumping; otherwise enter the
jumping state and start its animation. -/
def jump (s : Skier) : Skier :=
  if s.isCrashed || s.isJumping then s
  else setAnimation { s with state := .STATE_JUMPING }

/-- `Skier.turnLeft`. -/
def turnLeft (s : Skier) : Skier :=
  if s.isJumping then s
  else
    let s1 := if s.isCrashed then recoverFromCrash DIRECTION_LEFT s else s
    if s1.direction = DIRECTION_LEFT then moveSkierLeft s1
    else setDirection (s1.direction - 1) s1

/-- `Skier.turnRight`. -/
def turnRight (s : Skier) : Skier :=
  if s.isJumping then s
  else
    let s1 := if s.isCrashed then recoverFromCrash DIRECTION_RIGHT s else s
    if s1.direction = DIRECTION_RIGHT then moveSkierRight s1
    else setDirection (s1.direction + 1) s1

/-- `Skier.turnUp`. -/
def turnUp (s : Skier) : Skier :=
  if s.isJumping then s
  else if s.isCrashed then s
  else if s.direction = DIRECTION_LEFT || s.direction = DIRECTION_RIGHT then
    moveSkierUp s
  else s

/-- `Skier.turnDown`. -/
def turnDown (s : Skier) : Skier :=
  if s.isJumping then s
  else if s.isCrashed then s
  else setDirection DIRECTION_DOWN s

/-- `Skier.getBounds`: the skier-specific override — bottom edge raised to a
quarter image height above the center. -/
def getBounds (im : ImageManager) (s : Skier) : Option Rect :=
  match getImage im s.imageName with
  | none => none
  | some image =>
    some ⟨s.position.x - image.width / 2,
          s.position.y - image.height / 2,
          s.position.x + image.width / 2,
          s.position.y - image.height / 4⟩

end Skier

/-- An obstacle (`Entities/Obstacles/Obstacle.ts`): a position plus a fixed
image identifier; immutable, no state machine. -/
structure Obstacle where
  position : Position
  imageName : IMAGE_NAMES
  deriving DecidableEq, Repr

/-- `Entity.getBounds`, the default bounds of the entity base used by
obstacles: left/top at half width/height above-left of the center, right at
half width, bottom at the center's y itself. -/
def Obstacle.getBounds (im : ImageManager) (o : Obstacle) : Option Rect :=
  match im o.imageName with
  | none => none
  | some image =>
    some ⟨o.position.x - image.width / 2,
          o.position.y - image.height / 2,
          o.position.x + image.width / 2,
          o.position.y⟩

namespace Skier

/-- `Skier.isRockJumpCollision`: collided with a rock while jumping — not a
real collision, rocks can be jumped over. -/
def isRockJumpCollision (s : Skier) (collided : Bool)
    (imageName : IMAGE_NAMES) : Bool :=
  collided &&
    (imageName = IMAGE_NAMES.ROCK1 || imageName = IMAGE_NAMES.ROCK2) &&
    s.state = STATES.STATE_JUMPING

/-- `Skier.isJumpRampCollision`: collided with a jump ramp. -/
def isJumpRampCollision (collided : Bool) (imageName : IMAGE_NAMES) : Bool :=
  collided && imageName = IMAGE_NAMES.JUMP_RAMP

/-- The predicate of the first `obstacles.find` in `checkIfHitObstacle`: the
obstacle has bounds and is an overlapping jump ramp. -/
def rampFindPred (im : ImageManager) (skierBounds : Rect)
    (o : Obstacle) : Bool :=
  match o.getBounds im with
  | none => false
  | some obstacleBounds =>
    let collided := intersectTwoRects skierBounds obstacleBounds
    isJumpRampCollision collided o.imageName

/-- The predicate of the second `obstacles.find` in `checkIfHitObstacle`: the
obstacle has bounds and overlaps, except that a rock hit while jumping is
excused. -/
def normalFindPred (s : Skier) (im : ImageManager) (skierBounds : Rect)
    (o : Obstacle) : Bool :=
  match o.getBounds im with
  | none => false
  | some obstacleBounds =>
    let collided := intersectTwoRects skierBounds obstacleBounds
    if s.isRockJumpCollision collided o.imageName then false
    else collided

/-- `Skier.checkIfHitObstacle`: two passes over the active obstacles — first
look for an overlapping jump ramp (jump and stop if found), otherwise look
for a non-excused overlap (crash if found). -/
def checkIfHitObstacle (im : ImageManager) (obstacles : List Obstacle)
    (s : Skier) : Skier :=
  match s.getBounds im with
  | none => s
  | some skierBounds =>
    match obstacles.find? (rampFindPred im skierBounds) with
    | some _ => s.jump
    | none =>
      match obstacles.find? (normalFindPred s im skierBounds) with
      | some _ => s.crash
      | none => s

/-- `Skier.update`: move and collision-check only while skiing or jumping;
always advance the animation clock at interval `250 / STARTING_SPEED`. -/
def update (im : ImageManager) (obstacles : List Obstacle) (gameTime : ℚ)
    (s : Skier) : Skier :=
  let s1 :=
    if s.isSkiing || s.isJumping then checkIfHitObstacle im obstacles s.move
    else s
  animate gameTime (250 / STARTING_SPEED) s1

end Skier

/-- Modelled from the spec: the recognized key codes of `Constants.ts`
(`KEYS`, file not in the provided sources) — the four directional keys, jump
and pause from the browser's `KeyboardEvent.code` namespace.  Only their
distinctness matters to the claims. -/
def KEYS_LEFT : String := "ArrowLeft"

def KEYS_RIGHT : String := "ArrowRight"

def KEYS_UP : String := "ArrowUp"

def KEYS_DOWN : String := "ArrowDown"

def KEYS_SPACE : String := "Space"

def KEYS_TOGGLE_PAUSE : String := "KeyP"

/-- `Skier.handleInput`: nothing is handled while dead; otherwise dispatch on
the five recognized keys and report whether the key was consumed. -/
def Skier.handleInput (inputCode : String) (s : Skier) : Skier × Bool :=
  if s.isDead then (s, false)
  else if inputCode = KEYS_LEFT then (s.turnLeft, true)
  else if inputCode = KEYS_RIGHT then (s.turnRight, true)
  else if inputCode = KEYS_UP then (s.turnUp, true)
  else if inputCode = KEYS_DOWN then (s.turnDown, true)
  else if inputCode = KEYS_SPACE then (s.jump, true)
  else (s, false)

/-- Modelled from the spec: the pursuer (`Entities/Rhino.ts`, file not in the
provided sources) as far as `Game.togglePause` touches it — a position, a
speed, and a state tag of its own. -/
structure Rhino where
  position : Position
  speed : ℚ
  rhinoState : ℕ
  deriving DecidableEq, Repr

/-- The part of `Game` that `togglePause` reads and writes: the paused flag
and the two entities. -/
structure Game where
  paused : Bool
  skier : Skier
  rhino : Rhino
  deriving DecidableEq, Repr

/-- `Game.togglePause`: flip the paused flag; when now unpaused restore both
entities' starting speeds, when now paused zero both speeds.
`STARTING_SPEED_RHINO` lives in the missing `Rhino.ts`, so it is a parameter. -/
def Game.togglePause (rhinoStartingSpeed : ℚ) (g : Game) : Game :=
  let g1 := { g with paused := !g.paused }
  if !g1.paused then
    { g1 with skier := { g1.skier with speed := STARTING_SPEED },
              rhino := { g1.rhino with speed := rhinoStartingSpeed } }
  else
    { g1 with skier := { g1.skier with speed := 0 },
              rhino := { g1.rhino with speed := 0 } }

/-!
Generic entity base (`Entity.ts`, unnamed part_000), for the claims about
`setAnimation` and the animation frame machinery of an arbitrary entity.
Image identifiers and state tags are abstract (`ℕ`); the completion callback
of the base class is an opaque zero-argument closure, so the model reports
its invocation as an emitted `Bool` event instead of running it. -/

/-- `Core/Animation.ts` for a generic entity: image sequence, looping flag,
and whether a completion callback is present. -/
structure GAnimation where
  images : List ℕ
  looping : Bool
  hasCallback : Bool
  deriving DecidableEq, Repr

/-- The entity base fields: current image, nullable state tag, the state-tag
to animation map, current animation, frame index and last frame time. -/
structure GEntity where
  imageName : Option ℕ
  state : Option ℕ
  animations : ℕ → Option GAnimation
  curAnimation : Option GAnimation
  curAnimationFrame : ℕ
  curAnimationFrameTime : ℚ

namespace GEntity

/-- The JS lookup `this.animations[this.state]`: on a null state tag nothing
is registered. -/
def lookupAnim (e : GEntity) : Option GAnimation :=
  match e.state with
  | some st => e.animations st
  | none => none

/-- `Entity.setAnimation`: assign `curAnimation := animations[state]` (before
the null check), then if an animation was found reset the frame index and
show its first frame. -/
def setAnimation (e : GEntity) : GEntity :=
  let e1 := { e with curAnimation := e.lookupAnim }
  match e1.curAnimation with
  | none => e1
  | some a =>
    let e2 := { e1 with curAnimationFrame := 0 }
    { e2 with imageName := a.images.get? e2.curAnimationFrame }

/-- `Entity.finishAnimation`: clear the current animation; the returned flag
reports whether the (opaque) completion callback was invoked. -/
def finishAnimation (e : GEntity) : GEntity × Bool :=
  match e.curAnimation with
  | none => (e, false)
  | some a => ({ e with curAnimation := none }, a.hasCallback)

/-- `Entity.nextAnimationFrame`: record the time, increment the frame index;
past the last frame a non-looping animation finishes (no image update), a
looping one wraps to 0; otherwise show the frame at the new index.  The flag
reports a callback invocation. -/
def nextAnimationFrame (gameTime : ℚ) (e : GEntity) : GEntity × Bool :=
  match e.curAnimation with
  | none => (e, false)
  | some a =>
    let e1 := { e with curAnimationFrameTime := gameTime,
                       curAnimationFrame := e.curAnimationFrame + 1 }
    if e1.curAnimationFrame ≥ a.images.length then
      if a.looping = false then
        finishAnimation e1
      else
        let e2 := { e1 with curAnimationFrame := 0 }
        ({ e2 with imageName := a.images.get? e2.curAnimationFrame }, false)
    else
      ({ e1 with imageName := a.images.get? e1.curAnimationFrame }, false)

end GEntity

/-- `Entity.getBounds` in its general form (the default entity bounds):
parameterized on the entity's position and current image name. -/
def entityGetBounds (im : ImageManager) (pos : Position)
    (imageName : Option IMAGE_NAMES) : Option Rect :=
  match getImage im imageName with
  | none => none
  | some image =>
    some ⟨pos.x - image.width / 2,
          pos.y - image.height / 2,
          pos.x + image.width / 2,
          pos.y⟩

/-- Written from the SPEC's words, for comparison with the code
(`getBounds … returns a world-space rectangle centered on position sized to
the current image … Default: full image height`): a rectangle spanning the
full image width and the FULL image height around the center. -/
def specEntityBounds (im : ImageManager) (pos : Position)
    (imageName : Option IMAGE_NAMES) : Option Rect :=
  match getImage im imageName with
  | none => none
  | some image =>
    some ⟨pos.x - image.width / 2,
          pos.y - image.height / 2,
          pos.x + image.width / 2,
          pos.y + image.height / 2⟩

/-- Written from the SPEC's words, for comparison with the code
(`player override narrows the bottom edge to 3/4 of image height`): the
default full-image rectangle with the bottom edge pulled up to 3/4 of the
image height below the top edge. -/
def specSkierBounds (im : ImageManager) (pos : Position)
    (imageName : Option IMAGE_NAMES) : Option Rect :=
  match getImage im imageName with
  | none => none
  | some image =>
    some ⟨pos.x - image.width / 2,
          pos.y - image.height / 2,
          pos.x + image.width / 2,
          pos.y - image.height / 2 + image.height * 3 / 4⟩

/-!  Concrete inputs used by witnesses and counterexamples. -/

/-- An image service with nothing loaded yet. -/
def noImages : ImageManager := fun _ => none

/-- An image service where every image is loaded at 10×10. -/
def allTen : ImageManager := fun _ => some ⟨10, 10⟩

/-- A skier who died while the jump animation was still in flight (reachable:
the rhino catches a jumping skier; `die` sets the state and speed but leaves
`curAnimation` running). -/
def deadMidJump : Skier :=
  { position := ⟨0, 0⟩, imageName := some .SKIER_JUMP5,
    state := .STATE_DEAD, direction := DIRECTION_DOWN, speed := 0,
    curAnimation := some jumpAnimation, curAnimationFrame := 4,
    curAnimationFrameTime := 0 }

/-- A dead skier with no animation in flight. -/
def deadIdle : Skier :=
  { newSkier 0 0 with state := .STATE_DEAD, speed := 0 }

/-- A jump ramp obstacle at the origin. -/
def rampAtOrigin : Obstacle := ⟨⟨0, 0⟩, .JUMP_RAMP⟩

/-- A tree obstacle at the origin. -/
def treeAtOrigin : Obstacle := ⟨⟨0, 0⟩, .TREE⟩

/-- A rock obstacle at the origin. -/
def rockAtOrigin : Obstacle := ⟨⟨0, 0⟩, .ROCK1⟩

/-- The fresh skier after pressing jump once. -/
def jumpingSkier : Skier := Skier.jump (newSkier 0 0)

/-- The fresh skier after crashing. -/
def crashedSkier : Skier := Skier.crash (newSkier 0 0)

/-- A generic entity whose state tag (3) has no registered animation while an
unrelated animation is still running. -/
def c4entity : GEntity :=
  { imageName := some 7, state := some 3, animations := fun _ => none,
    curAnimation := some ⟨[1, 2], true, false⟩, curAnimationFrame := 1,
    curAnimationFrameTime := 0 }

/-- A generic entity freshly started (frame 0, first frame displayed) on a
three-frame animation [A, B, C]. -/
def c6start (A B C : ℕ) (looping cb : Bool) (st : Option ℕ) (t0 : ℚ) :
    GEntity :=
  { imageName := some A, state := st, animations := fun _ => none,
    curAnimation := some ⟨[A, B, C], looping, cb⟩, curAnimationFrame := 0,
    curAnimationFrameTime := t0 }

/-- The skier's heading is one of the five discrete values 0..4. -/
abbrev DirOK (s : Skier) : Prop := 0 ≤ s.direction ∧ s.direction ≤ 4

end SkiFree

namespace SkiFree

/-- C1 (counterexample): the DEAD state is NOT terminal as claimed.  A skier
who died mid-jump (jump animation still current, frame 4) is brought back to
`SKIING` at starting speed by a single `update` call: the jump animation's
completion callback (`continueFromJump`) runs even while dead. -/
theorem C1_dead_not_terminal_cex :
    (Skier.update noImages [] 1000 deadMidJump).state ≠ STATES.STATE_DEAD ∧
    (Skier.update noImages [] 1000 deadMidJump).state = STATES.STATE_SKIING ∧
    (Skier.update noImages [] 1000 deadMidJump).speed = STARTING_SPEED := by
  refine ⟨?_, ?_, ?_⟩ <;>
  · simp +decide [Skier.update, Skier.isSkiing, Skier.isJumping, deadMidJump,
      Skier.animate, Skier.nextAnimationFrame, Skier.finishAnimation,
      jumpAnimation, IMAGES_JUMPING, Skier.continueFromJump,
      Skier.setDirection, Skier.setDirectionalImage, DIRECTION_IMAGES,
      STARTING_SPEED, DIRECTION_DOWN, DIRECTION_LEFT, DIRECTION_LEFT_DOWN]
    norm_num
    try decide

/-- C1 (amended): while DEAD, `handleInput` changes nothing and reports the
key as unhandled, and `update` is the identity provided no animation is in
flight (`curAnimation = none`); a jump animation still in flight when the
skier dies can resurrect them via its completion callback. -/
theorem C1_dead_terminal_amended (s : Skier)
    (h : s.state = STATES.STATE_DEAD) :
    (∀ c, Skier.handleInput c s = (s, false)) ∧
    (s.curAnimation = none →
      ∀ im obstacles t, Skier.update im obstacles t s = s) := by
  constructor
  · intro c
    simp [Skier.handleInput, Skier.isDead, h]
  · intro hanim im obstacles t
    simp [Skier.update, Skier.isSkiing, Skier.isJumping, h, Skier.animate,
          hanim]

/-- C1 (witness): the amended theorem applied to a concrete dead skier with
no animation in flight. -/
theorem C1_dead_terminal_witness :
    Skier.handleInput "ArrowLeft" deadIdle = (deadIdle, false) ∧
    Skier.update noImages [] 5 deadIdle = deadIdle := by
  have h := C1_dead_terminal_amended deadIdle rfl
  exact ⟨h.1 "ArrowLeft", h.2 rfl noImages [] 5⟩

/-- C4 (counterexample): `setAnimation` does NOT leave `curAnimation`
unchanged when the current state tag has no registered animation — the
assignment `curAnimation := animations[state]` happens before the null check,
so the previously running animation is dropped. -/
theorem C4_setAnimation_cex :
    (GEntity.setAnimation c4entity).curAnimation ≠ c4entity.curAnimation ∧
    (GEntity.setAnimation c4entity).curAnimation = none ∧
    c4entity.curAnimation = some ⟨[1, 2], true, false⟩ := by
  refine ⟨?_, rfl, rfl⟩
  decide

/-- C4 (amended): when no Animation is registered for the current state tag,
`setAnimation` clears `curAnimation` to null (stopping any prior animation)
but leaves the frame index and the displayed image unchanged. -/
theorem C4_setAnimation_amended (e : GEntity)
    (h : e.lookupAnim = none) :
    (GEntity.setAnimation e).curAnimation = none ∧
    (GEntity.setAnimation e).curAnimationFrame = e.curAnimationFrame ∧
    (GEntity.setAnimation e).imageName = e.imageName := by
  simp [GEntity.setAnimation, h]

/-- C4 (witness): the amended theorem applied to the concrete entity of the
counterexample. -/
theorem C4_setAnimation_witness :
    (GEntity.setAnimation c4entity).curAnimation = none ∧
    (GEntity.setAnimation c4entity).curAnimationFrame = 1 ∧
    (GEntity.setAnimation c4entity).imageName = some 7 := by
  exact C4_setAnimation_amended c4entity rfl

/-- C5 (counterexample): the bounds are NOT "full image height" (default) and
NOT "bottom edge at 3/4 of image height" (player).  For a 10×10 image at the
origin the code's default bottom edge is 0 (the center, i.e. half height) and
the skier's is −5/2 (a quarter height below the top), while the spec's words
give 5 and 5/2. -/
theorem C5_bounds_cex :
    entityGetBounds allTen ⟨0, 0⟩ (some .TREE) ≠
      specEntityBounds allTen ⟨0, 0⟩ (some .TREE) ∧
    Skier.getBounds allTen (newSkier 0 0) ≠
      specSkierBounds allTen ⟨0, 0⟩ (some .SKIER_DOWN) ∧
    entityGetBounds allTen ⟨0, 0⟩ (some .TREE) =
      some ⟨-5, -5, 5, 0⟩ ∧
    Skier.getBounds allTen (newSkier 0 0) =
      some ⟨-5, -5, 5, -5 / 2⟩ := by
  refine ⟨?_, ?_, ?_, ?_⟩ <;>
    norm_num [entityGetBounds, specEntityBounds, Skier.getBounds,
      specSkierBounds, allTen, getImage, newSkier, Rect.mk.injEq]

/-- C5 (amended): `getBounds` returns null exactly when the current image is
not loaded; otherwise left/right sit half the image width either side of the
position, the top half the image height above it, and the bottom edge is the
position's own y for the default entity (half the image height) and a quarter
image height above it for the player. -/
theorem C5_bounds_amended (im : ImageManager) (pos : Position)
    (name : Option IMAGE_NAMES) (s : Skier) :
    (entityGetBounds im pos name = none ↔ getImage im name = none) ∧
    (∀ img, getImage im name = some img →
      entityGetBounds im pos name =
        some ⟨pos.x - img.width / 2, pos.y - img.height / 2,
              pos.x + img.width / 2, pos.y⟩) ∧
    (Skier.getBounds im s = none ↔ getImage im s.imageName = none) ∧
    (∀ img, getImage im s.imageName = some img →
      Skier.getBounds im s =
        some ⟨s.position.x - img.width / 2, s.position.y - img.height / 2,
              s.position.x + img.width / 2,
              s.position.y - img.height / 4⟩) := by
  refine ⟨?_, ?_, ?_, ?_⟩
  · unfold entityGetBounds
    cases h : getImage im name <;> simp [h]
  · intro img h
    unfold entityGetBounds
    rw [h]
  · unfold Skier.getBounds
    cases h : getImage im s.imageName <;> simp [h]
  · intro img h
    unfold Skier.getBounds
    rw [h]

/-- C5 (witness): the amended theorem applied to the all-loaded 10×10 image
service and the fresh skier. -/
theorem C5_bounds_witness :
    entityGetBounds allTen ⟨0, 0⟩ (some .TREE) = some ⟨-5, -5, 5, 0⟩ ∧
    Skier.getBounds allTen (newSkier 0 0) = some ⟨-5, -5, 5, -5 / 2⟩ := by
  have h := C5_bounds_amended allTen ⟨0, 0⟩ (some .TREE) (newSkier 0 0)
  rw [h.2.1 ⟨10, 10⟩ rfl, h.2.2.2 ⟨10, 10⟩ rfl]
  norm_num [newSkier]

/-- Helper: `setAnimation` never touches the skier's direction. -/
lemma direction_setAnimation (s : Skier) :
    (Skier.setAnimation s).direction = s.direction := by
  unfold Skier.setAnimation
  cases h : skierAnimations s.state <;> simp [h]

/-- Helper: `jump` never touches the skier's direction. -/
lemma direction_jump (s : Skier) :
    (Skier.jump s).direction = s.direction := by
  unfold Skier.jump
  split
  · rfl
  · exact direction_setAnimation _

/-- Helper: the collision check never touches the skier's direction. -/
lemma direction_checkIfHitObstacle (im : ImageManager)
    (obstacles : List Obstacle) (s : Skier) :
    (Skier.checkIfHitObstacle im obstacles s).direction = s.direction := by
  unfold Skier.checkIfHitObstacle
  split
  · rfl
  · split
    · exact direction_jump s
    · split <;> rfl

/-- Helper: frame movement never touches the skier's direction. -/
lemma direction_move (s : Skier) : (Skier.move s).direction = s.direction := by
  unfold Skier.move
  split_ifs <;> rfl

/-- Helper: finishing an animation leaves the direction alone or (via the
`continueFromJump` callback) snaps it to straight-down. -/
lemma direction_finishAnimation (s : Skier) :
    (Skier.finishAnimation s).direction = s.direction ∨
    (Skier.finishAnimation s).direction = DIRECTION_DOWN := by
  unfold Skier.finishAnimation
  split
  · exact Or.inl rfl
  · split
    · exact Or.inl rfl
    · exact Or.inr rfl

/-- Helper: advancing an animation frame leaves the direction alone or snaps
it to straight-down. -/
lemma direction_nextAnimationFrame (t : ℚ) (s : Skier) :
    (Skier.nextAnimationFrame t s).direction = s.direction ∨
    (Skier.nextAnimationFrame t s).direction = DIRECTION_DOWN := by
  unfold Skier.nextAnimationFrame
  split
  · exact Or.inl rfl
  · dsimp only
    split_ifs
    · exact direction_finishAnimation _
    · exact Or.inl rfl
    · exact Or.inl rfl

/-- Helper: the animation clock leaves the direction alone or snaps it to
straight-down. -/
lemma direction_animate (t v : ℚ) (s : Skier) :
    (Skier.animate t v s).direction = s.direction ∨
    (Skier.animate t v s).direction = DIRECTION_DOWN := by
  unfold Skier.animate
  split
  · exact Or.inl rfl
  · split
    · exact direction_nextAnimationFrame t s
    · exact Or.inl rfl

/-- Helper: `turnLeft` keeps the direction in 0..4. -/
lemma dirOK_turnLeft (s : Skier) (h : DirOK s) : DirOK s.turnLeft := by
  by_cases hj : s.isJumping
  · simpa [Skier.turnLeft, hj] using h
  · by_cases hc : s.isCrashed
    · simp [Skier.turnLeft, hj, hc, Skier.recoverFromCrash,
        Skier.setDirection, Skier.setDirectionalImage, Skier.moveSkierLeft,
        DIRECTION_LEFT, DirOK]
    · by_cases h0 : s.direction = DIRECTION_LEFT
      · simp [Skier.turnLeft, hj, hc, h0, Skier.moveSkierLeft, DirOK,
          DIRECTION_LEFT]
      · simp only [DIRECTION_LEFT] at h0
        obtain ⟨h1, h2⟩ := h
        simp [Skier.turnLeft, hj, hc, h0, Skier.setDirection,
          Skier.setDirectionalImage, DirOK, DIRECTION_LEFT]
        omega

/-- Helper: `turnRight` keeps the direction in 0..4. -/
lemma dirOK_turnRight (s : Skier) (h : DirOK s) : DirOK s.turnRight := by
  by_cases hj : s.isJumping
  · simpa [Skier.turnRight, hj] using h
  · by_cases hc : s.isCrashed
    · simp [Skier.turnRight, hj, hc, Skier.recoverFromCrash,
        Skier.setDirection, Skier.setDirectionalImage, Skier.moveSkierRight,
        DIRECTION_RIGHT, DirOK]
    · by_cases h4 : s.direction = DIRECTION_RIGHT
      · simp [Skier.turnRight, hj, hc, h4, Skier.moveSkierRight, DirOK,
          DIRECTION_RIGHT]
      · simp only [DIRECTION_RIGHT] at h4
        obtain ⟨h1, h2⟩ := h
        simp [Skier.turnRight, hj, hc, h4, Skier.setDirection,
          Skier.setDirectionalImage, DirOK, DIRECTION_RIGHT]
        omega

/-- Helper: `turnUp` keeps the direction in 0..4. -/
lemma dirOK_turnUp (s : Skier) (h : DirOK s) : DirOK s.turnUp := by
  unfold Skier.turnUp
  split_ifs <;> exact h

/-- Helper: `turnDown` keeps the direction in 0..4. -/
lemma dirOK_turnDown (s : Skier) (h : DirOK s) : DirOK s.turnDown := by
  unfold Skier.turnDown
  split_ifs
  · exact h
  · exact h
  · simp +decide [Skier.setDirection, Skier.setDirectionalImage, DirOK,
      DIRECTION_DOWN]

/-- Helper: `jump` keeps the direction in 0..4. -/
lemma dirOK_jump (s : Skier) (h : DirOK s) : DirOK s.jump := by
  obtain ⟨h1, h2⟩ := h
  exact ⟨by rw [direction_jump s]; exact h1,
         by rw [direction_jump s]; exact h2⟩

/-- Helper: a frame update keeps the direction in 0..4. -/
lemma dirOK_update (im : ImageManager) (obstacles : List Obstacle) (t : ℚ)
    (s : Skier) (h : DirOK s) :
    DirOK (Skier.update im obstacles t s) := by
  unfold Skier.update
  rcases direction_animate t (250 / STARTING_SPEED)
      (if s.isSkiing || s.isJumping then
        Skier.checkIfHitObstacle im obstacles s.move else s) with h1 | h1 <;>
    unfold DirOK <;> rw [h1]
  · split
    · rw [direction_checkIfHitObstacle, direction_move]
      exact h
    · exact h
  · unfold DIRECTION_DOWN
    omega

/-- C2: a SKIING skier whose (loaded) bounds overlap at least one jump-ramp
obstacle transitions to JUMPING with the jump animation started (frame 0,
first jump image), regardless of any other simultaneous overlap — speed and
position are untouched, so no crash happens that frame. -/
theorem C2_jump_ramp_priority (im : ImageManager) (obstacles : List Obstacle)
    (s : Skier) (sb : Rect) (hstate : s.state = STATES.STATE_SKIING)
    (hb : s.getBounds im = some sb)
    (hramp : ∃ o ∈ obstacles, ∃ ob, o.getBounds im = some ob ∧
      intersectTwoRects sb ob = true ∧
      o.imageName = IMAGE_NAMES.JUMP_RAMP) :
    (Skier.checkIfHitObstacle im obstacles s).state = STATES.STATE_JUMPING ∧
    (Skier.checkIfHitObstacle im obstacles s).curAnimation =
      some jumpAnimation ∧
    (Skier.checkIfHitObstacle im obstacles s).curAnimationFrame = 0 ∧
    (Skier.checkIfHitObstacle im obstacles s).imageName =
      some IMAGE_NAMES.SKIER_JUMP1 ∧
    (Skier.checkIfHitObstacle im obstacles s).speed = s.speed ∧
    (Skier.checkIfHitObstacle im obstacles s).position = s.position := by
  obtain ⟨o, ho, ob, hob, hint, hname⟩ := hramp
  have hpred : Skier.rampFindPred im sb o = true := by
    simp [Skier.rampFindPred, hob, Skier.isJumpRampCollision, hint, hname]
  obtain ⟨o2, ho2⟩ :=
    Option.isSome_iff_exists.mp (List.find?_isSome.mpr ⟨o, ho, hpred⟩)
  simp only [Skier.checkIfHitObstacle, hb, ho2]
  simp [Skier.jump, Skier.isCrashed, Skier.isJumping, hstate,
    Skier.setAnimation, skierAnimations, jumpAnimation, IMAGES_JUMPING]

/-- C2 (witness): a fresh skier overlapping both a tree and a jump ramp ends
the collision check jumping, not crashed. -/
theorem C2_jump_ramp_priority_witness :
    (Skier.checkIfHitObstacle allTen [treeAtOrigin, rampAtOrigin]
      (newSkier 0 0)).state = STATES.STATE_JUMPING ∧
    (Skier.checkIfHitObstacle allTen [treeAtOrigin, rampAtOrigin]
      (newSkier 0 0)).speed = (newSkier 0 0).speed := by
  have h := C2_jump_ramp_priority allTen [treeAtOrigin, rampAtOrigin]
    (newSkier 0 0) ⟨-5, -5, 5, -5 / 2⟩ rfl
    (by norm_num [Skier.getBounds, getImage, allTen, newSkier])
    ⟨rampAtOrigin, by simp, ⟨-5, -5, 5, 0⟩,
      by norm_num [Obstacle.getBounds, allTen, rampAtOrigin],
      by norm_num [intersectTwoRects], rfl⟩
  exact ⟨h.1, h.2.2.2.2.1⟩

/-- C3: with no overlapping jump ramp, the normal pass (a) leaves a JUMPING
skier whose every overlap is a rock completely unchanged, and (b) crashes the
skier (state CRASHED, speed 0, crash image) as soon as some overlap is not an
excused rock-while-jumping. -/
theorem C3_normal_pass (im : ImageManager) (obstacles : List Obstacle)
    (s : Skier) (sb : Rect) (hb : s.getBounds im = some sb)
    (hnoramp : ∀ o ∈ obstacles, ∀ ob, o.getBounds im = some ob →
      intersectTwoRects sb ob = true →
      o.imageName ≠ IMAGE_NAMES.JUMP_RAMP) :
    (s.state = STATES.STATE_JUMPING →
      (∀ o ∈ obstacles, ∀ ob, o.getBounds im = some ob →
        intersectTwoRects sb ob = true →
        (o.imageName = IMAGE_NAMES.ROCK1 ∨
         o.imageName = IMAGE_NAMES.ROCK2)) →
      Skier.checkIfHitObstacle im obstacles s = s)
    ∧ ((∃ o ∈ obstacles, ∃ ob, o.getBounds im = some ob ∧
        intersectTwoRects sb ob = true ∧
        ¬((o.imageName = IMAGE_NAMES.ROCK1 ∨
           o.imageName = IMAGE_NAMES.ROCK2) ∧
          s.state = STATES.STATE_JUMPING)) →
      (Skier.checkIfHitObstacle im obstacles s).state =
        STATES.STATE_CRASHED ∧
      (Skier.checkIfHitObstacle im obstacles s).speed = 0 ∧
      (Skier.checkIfHitObstacle im obstacles s).imageName =
        some IMAGE_NAMES.SKIER_CRASH) := by
  have hrampnone : obstacles.find? (Skier.rampFindPred im sb) = none := by
    rw [List.find?_eq_none]
    intro o ho
    have h := hnoramp o ho
    cases hob : o.getBounds im with
    | none => simp [Skier.rampFindPred, hob]
    | some ob =>
      simp only [Skier.rampFindPred, hob, Skier.isJumpRampCollision]
      cases hint : intersectTwoRects sb ob with
      | false => simp
      | true => simp [h ob hob hint]
  constructor
  · intro hj hall
    have hnone : obstacles.find? (Skier.normalFindPred s im sb) = none := by
      rw [List.find?_eq_none]
      intro o ho
      cases hob : o.getBounds im with
      | none => simp [Skier.normalFindPred, hob]
      | some ob =>
        simp only [Skier.normalFindPred, hob, Skier.isRockJumpCollision]
        cases hint : intersectTwoRects sb ob with
        | false => simp
        | true =>
          have hrock := hall o ho ob hob hint
          simp +decide [hrock, hj]
    simp only [Skier.checkIfHitObstacle, hb, hrampnone, hnone]
  · rintro ⟨o, ho, ob, hob, hint, hnex⟩
    have hpred : Skier.normalFindPred s im sb o = true := by
      simp only [Skier.normalFindPred, hob, Skier.isRockJumpCollision, hint]
      by_cases hrock : o.imageName = IMAGE_NAMES.ROCK1 ∨
          o.imageName = IMAGE_NAMES.ROCK2
      · have hsj : ¬s.state = STATES.STATE_JUMPING := fun hj =>
          hnex ⟨hrock, hj⟩
        simp +decide [hsj]
      · simp +decide at hrock
        simp +decide [hrock.1, hrock.2]
    obtain ⟨o2, ho2⟩ :=
      Option.isSome_iff_exists.mp (List.find?_isSome.mpr ⟨o, ho, hpred⟩)
    simp only [Skier.checkIfHitObstacle, hb, hrampnone, ho2]
    simp [Skier.crash]

/-- C3 (witness): a jumping skier overlapping only a rock is unchanged; a
jumping skier overlapping a tree crashes. -/
theorem C3_normal_pass_witness :
    Skier.checkIfHitObstacle allTen [rockAtOrigin] jumpingSkier =
      jumpingSkier ∧
    (Skier.checkIfHitObstacle allTen [treeAtOrigin] jumpingSkier).state =
      STATES.STATE_CRASHED := by
  have hb : jumpingSkier.getBounds allTen = some ⟨-5, -5, 5, -5 / 2⟩ := by
    simp +decide [Skier.getBounds, getImage, allTen, jumpingSkier,
      Skier.jump, Skier.isCrashed, Skier.isJumping, newSkier,
      Skier.setAnimation, skierAnimations, jumpAnimation, IMAGES_JUMPING]
    norm_num
  have hstate : jumpingSkier.state = STATES.STATE_JUMPING := by
    simp +decide [jumpingSkier, Skier.jump, Skier.isCrashed,
      Skier.isJumping, newSkier, Skier.setAnimation, skierAnimations]
  constructor
  · have h := C3_normal_pass allTen [rockAtOrigin] jumpingSkier
      ⟨-5, -5, 5, -5 / 2⟩ hb
      (by intro o ho ob hob hint
          simp at ho
          subst ho
          simp [rockAtOrigin])
    exact h.1 hstate
      (by intro o ho ob hob hint
          simp at ho
          subst ho
          simp [rockAtOrigin])
  · have h := C3_normal_pass allTen [treeAtOrigin] jumpingSkier
      ⟨-5, -5, 5, -5 / 2⟩ hb
      (by intro o ho ob hob hint
          simp at ho
          subst ho
          simp [treeAtOrigin])
    exact (h.2 ⟨treeAtOrigin, by simp, ⟨-5, -5, 5, 0⟩,
      by norm_num [Obstacle.getBounds, allTen, treeAtOrigin],
      by norm_num [intersectTwoRects],
      by simp [treeAtOrigin]⟩).1

/-- C6: a non-looping animation [A, B, C] started at frame 0 shows B then C
on the first two advances; the third advance clears the current animation,
fires the completion callback exactly once (reported by the emitted flag,
with any further advance a no-op), and does not advance the image past C.  A
looping animation instead wraps its frame index to 0 and shows A again. -/
theorem C6_animation_frames (A B C : ℕ) (cb : Bool) (st : Option ℕ)
    (t0 t1 t2 t3 t4 : ℚ) :
    (((c6start A B C false cb st t0).nextAnimationFrame t1).1.imageName =
        some B
      ∧ ((c6start A B C false cb st t0).nextAnimationFrame
          t1).1.curAnimationFrame = 1
      ∧ ((c6start A B C false cb st t0).nextAnimationFrame t1).2 = false)
    ∧ ((((c6start A B C false cb st t0).nextAnimationFrame
          t1).1.nextAnimationFrame t2).1.imageName = some C
      ∧ (((c6start A B C false cb st t0).nextAnimationFrame
          t1).1.nextAnimationFrame t2).1.curAnimationFrame = 2
      ∧ (((c6start A B C false cb st t0).nextAnimationFrame
          t1).1.nextAnimationFrame t2).2 = false)
    ∧ (((((c6start A B C false cb st t0).nextAnimationFrame
          t1).1.nextAnimationFrame t2).1.nextAnimationFrame
          t3).1.curAnimation = none
      ∧ ((((c6start A B C false cb st t0).nextAnimationFrame
          t1).1.nextAnimationFrame t2).1.nextAnimationFrame
          t3).1.imageName = some C
      ∧ ((((c6start A B C false cb st t0).nextAnimationFrame
          t1).1.nextAnimationFrame t2).1.nextAnimationFrame t3).2 = cb)
    ∧ ((((((c6start A B C false cb st t0).nextAnimationFrame
          t1).1.nextAnimationFrame t2).1.nextAnimationFrame
          t3).1.nextAnimationFrame t4).1 =
        ((((c6start A B C false cb st t0).nextAnimationFrame
          t1).1.nextAnimationFrame t2).1.nextAnimationFrame t3).1
      ∧ (((((c6start A B C false cb st t0).nextAnimationFrame
          t1).1.nextAnimationFrame t2).1.nextAnimationFrame
          t3).1.nextAnimationFrame t4).2 = false)
    ∧ (((((c6start A B C true cb st t0).nextAnimationFrame
          t1).1.nextAnimationFrame t2).1.nextAnimationFrame
          t3).1.curAnimationFrame = 0
      ∧ ((((c6start A B C true cb st t0).nextAnimationFrame
          t1).1.nextAnimationFrame t2).1.nextAnimationFrame
          t3).1.imageName = some A
      ∧ ((((c6start A B C true cb st t0).nextAnimationFrame
          t1).1.nextAnimationFrame t2).1.nextAnimationFrame
          t3).1.curAnimation = some ⟨[A, B, C], true, cb⟩
      ∧ ((((c6start A B C true cb st t0).nextAnimationFrame
          t1).1.nextAnimationFrame t2).1.nextAnimationFrame t3).2 =
        false) := by
  exact ⟨⟨rfl, rfl, rfl⟩, ⟨rfl, rfl, rfl⟩, ⟨rfl, rfl, rfl⟩, ⟨rfl, rfl⟩,
    rfl, rfl, rfl, rfl⟩

/-- C7: turning left while CRASHED first recovers the skier (SKIING, speed
restored to the starting speed, facing fully left) and then — the skier now
facing fully left — nudges the position one step left; turning right is the
mirror image toward fully right. -/
theorem C7_turn_recovers_crash (s : Skier)
    (h : s.state = STATES.STATE_CRASHED) :
    Skier.turnLeft s =
      { s with state := .STATE_SKIING, speed := STARTING_SPEED,
               direction := DIRECTION_LEFT,
               imageName := some .SKIER_LEFT,
               position := { s.position with
                              x := s.position.x - STARTING_SPEED } } ∧
    Skier.turnRight s =
      { s with state := .STATE_SKIING, speed := STARTING_SPEED,
               direction := DIRECTION_RIGHT,
               imageName := some .SKIER_RIGHT,
               position := { s.position with
                              x := s.position.x + STARTING_SPEED } } := by
  constructor <;>
    simp +decide [Skier.turnLeft, Skier.turnRight, Skier.isJumping,
      Skier.isCrashed, h, Skier.recoverFromCrash, Skier.setDirection,
      Skier.setDirectionalImage, DIRECTION_IMAGES, DIRECTION_LEFT,
      DIRECTION_RIGHT, DIRECTION_LEFT_DOWN, DIRECTION_DOWN,
      DIRECTION_RIGHT_DOWN, Skier.moveSkierLeft, Skier.moveSkierRight]

/-- C7 (witness): the theorem applied to a freshly crashed skier. -/
theorem C7_turn_recovers_crash_witness :
    Skier.turnLeft crashedSkier =
      { crashedSkier with
          state := .STATE_SKIING
          speed := STARTING_SPEED
          direction := DIRECTION_LEFT
          imageName := some .SKIER_LEFT
          position := { crashedSkier.position with
                         x := crashedSkier.position.x - STARTING_SPEED } } ∧
    Skier.turnRight crashedSkier =
      { crashedSkier with
          state := .STATE_SKIING
          speed := STARTING_SPEED
          direction := DIRECTION_RIGHT
          imageName := some .SKIER_RIGHT
          position := { crashedSkier.position with
                         x := crashedSkier.position.x + STARTING_SPEED } } :=
  ⟨(C7_turn_recovers_crash crashedSkier rfl).1,
   (C7_turn_recovers_crash crashedSkier rfl).2⟩

/-- C8: toggling pause only flips the flag and rewrites the two speeds —
zeroed on pause, restored to the nominal starting constants on resume — and
leaves both entities' state tags and positions untouched, so a double toggle
from the unpaused state restores both nominal speeds exactly. -/
theorem C8_togglePause (rs : ℚ) (g : Game) :
    let g1 := g.togglePause rs
    let g2 := g1.togglePause rs
    (g1.skier.state = g.skier.state ∧ g1.skier.position = g.skier.position
      ∧ g1.skier.direction = g.skier.direction
      ∧ g1.skier.imageName = g.skier.imageName
      ∧ g1.skier.curAnimation = g.skier.curAnimation
      ∧ g1.rhino.position = g.rhino.position
      ∧ g1.rhino.rhinoState = g.rhino.rhinoState)
    ∧ (g.paused = false → g1.skier.speed = 0 ∧ g1.rhino.speed = 0)
    ∧ (g.paused = true →
        g1.skier.speed = STARTING_SPEED ∧ g1.rhino.speed = rs)
    ∧ (g.paused = false →
        g2.skier.speed = STARTING_SPEED ∧ g2.rhino.speed = rs
        ∧ g2.skier.state = g.skier.state
        ∧ g2.skier.position = g.skier.position
        ∧ g2.rhino.position = g.rhino.position
        ∧ g2.rhino.rhinoState = g.rhino.rhinoState
        ∧ g2.paused = g.paused) := by
  cases hp : g.paused <;> simp [Game.togglePause, hp]

/-- C8 (witness): the theorem applied to a concrete unpaused game with rhino
starting speed 3. -/
theorem C8_togglePause_witness :
    ((Game.togglePause 3 (Game.togglePause 3
        ⟨false, newSkier 0 0, ⟨⟨-500, -2000⟩, 3, 0⟩⟩)).skier.speed =
      STARTING_SPEED) ∧
    ((Game.togglePause 3 (Game.togglePause 3
        ⟨false, newSkier 0 0, ⟨⟨-500, -2000⟩, 3, 0⟩⟩)).rhino.speed = 3) := by
  have h := C8_togglePause 3 ⟨false, newSkier 0 0, ⟨⟨-500, -2000⟩, 3, 0⟩⟩
  exact ⟨(h.2.2.2 rfl).1, (h.2.2.2 rfl).2.1⟩

/-- C9: `handleInput` returns true exactly when the code is one of the five
recognized keys and the skier is not DEAD; while DEAD, and on any
unrecognized code, it returns false with the skier completely unchanged. -/
theorem C9_handleInput_consumed (c : String) (s : Skier) :
    ((Skier.handleInput c s).2 = true ↔
      ((c = KEYS_LEFT ∨ c = KEYS_RIGHT ∨ c = KEYS_UP ∨ c = KEYS_DOWN ∨
        c = KEYS_SPACE) ∧ s.state ≠ STATES.STATE_DEAD))
    ∧ (s.state = STATES.STATE_DEAD → Skier.handleInput c s = (s, false))
    ∧ (¬(c = KEYS_LEFT ∨ c = KEYS_RIGHT ∨ c = KEYS_UP ∨ c = KEYS_DOWN ∨
        c = KEYS_SPACE) → Skier.handleInput c s = (s, false)) := by
  by_cases hd : s.state = STATES.STATE_DEAD <;>
    simp only [Skier.handleInput, Skier.isDead, hd] <;>
    split_ifs <;> simp_all

/-- C9 (witness): an unrecognized key on a live skier, and a recognized key
on a dead skier, are both reported unhandled with the skier unchanged. -/
theorem C9_handleInput_consumed_witness :
    Skier.handleInput "KeyQ" (newSkier 0 0) = (newSkier 0 0, false) ∧
    Skier.handleInput "ArrowLeft" deadIdle = (deadIdle, false) ∧
    (Skier.handleInput "ArrowLeft" (newSkier 0 0)).2 = true := by
  refine ⟨?_, ?_, ?_⟩
  · exact (C9_handleInput_consumed "KeyQ" (newSkier 0 0)).2.2 (by decide)
  · exact (C9_handleInput_consumed "ArrowLeft" deadIdle).2.1 rfl
  · exact (C9_handleInput_consumed "ArrowLeft" (newSkier 0 0)).1.mpr
      ⟨Or.inl rfl, by decide⟩

/-- C10: the skier's heading starts at straight-down (2) and stays one of the
five discrete values 0..4 across every `handleInput` and `update` call, and
the direction-to-image lookup is defined on that whole range. -/
theorem C10_direction_invariant (x y t : ℚ) (c : String) (im : ImageManager)
    (obstacles : List Obstacle) (s : Skier) (d : ℤ) :
    (newSkier x y).direction = DIRECTION_DOWN
    ∧ (DirOK s → DirOK (Skier.handleInput c s).1)
    ∧ (DirOK s → DirOK (Skier.update im obstacles t s))
    ∧ (0 ≤ d → d ≤ 4 → (DIRECTION_IMAGES d).isSome = true) := by
  refine ⟨rfl, ?_, fun h => dirOK_update im obstacles t s h, ?_⟩
  · intro h
    unfold Skier.handleInput
    split_ifs <;>
      first
        | exact h
        | exact dirOK_turnLeft s h
        | exact dirOK_turnRight s h
        | exact dirOK_turnUp s h
        | exact dirOK_turnDown s h
        | exact dirOK_jump s h
  · intro h0 h4
    have : d = 0 ∨ d = 1 ∨ d = 2 ∨ d = 3 ∨ d = 4 := by omega
    rcases this with h | h | h | h | h <;>
      simp [DIRECTION_IMAGES, h, DIRECTION_LEFT, DIRECTION_LEFT_DOWN,
        DIRECTION_DOWN, DIRECTION_RIGHT_DOWN, DIRECTION_RIGHT]

/-- C10 (witness): the invariant instantiated on a fresh skier for a left
turn and for a frame update, and the lookup at heading 3. -/
theorem C10_direction_invariant_witness :
    DirOK (Skier.handleInput "ArrowLeft" (newSkier 0 0)).1 ∧
    DirOK (Skier.update noImages [] 5 (newSkier 0 0)) ∧
    (DIRECTION_IMAGES 3).isSome = true := by
  have h := C10_direction_invariant 0 0 5 "ArrowLeft" noImages [] (newSkier 0 0) 3
  exact ⟨h.2.1 (by decide), h.2.2.1 (by decide), h.2.2.2 (by decide) (by decide)⟩

end SkiFree
